import Mathlib

/-!
Shallow embedding of the service-desk application's ticket model and its
ticket handlers, together with proofs checking the specification's claims
against the code.

Sources embedded:
- backend/src/models/Ticket.js: the ticket schema fields, the pre-save
  ticket-number hook (lines 126-152) and the pre-save resolved/closed
  timestamp hook (lines 155-164).
- the ticket controller (createTicket, getTicketById, updateTicket,
  addComment, assignTicket, getTicketStats).

Modelling conventions:
- Mongoose ObjectIds are Nat; dates are Nat (milliseconds since epoch);
  the store is a List Ticket (the tickets collection).
- A JavaScript number that may be NaN is modelled as Option Nat with
  none playing the role of NaN (all numbers arising in the embedded code
  are non-negative integers or NaN).
- An absent ticketNumber (undefined, falsy in JS) is modelled as the
  empty string, matching the hook's truthiness test `if (!this.ticketNumber)`.
- HTTP responses of the handlers are modelled by the Res sum type; the
  JSON payloads the handlers attach are carried by the ok constructor.
-/

namespace ServiceDesk

/-- User roles: the User schema allows role either user or admin. -/
inductive Role where
  | user
  | admin
deriving DecidableEq, Repr

/-- The authenticated actor (req.user): id and role. -/
structure Actor where
  id : Nat
  role : Role
deriving DecidableEq, Repr

/-- Ticket statuses, from the schema enum
['Open', 'In Progress', 'Waiting for Response', 'Resolved', 'Closed']. -/
inductive Status where
  | Open
  | InProgress
  | WaitingForResponse
  | Resolved
  | Closed
deriving DecidableEq, Repr

/-- A comment subdocument: user ref, message, isInternal flag, createdAt. -/
structure Comment where
  user : Nat
  message : String
  isInternal : Bool
  createdAt : Nat
deriving DecidableEq, Repr

/-- The Ticket document (the schema fields the claims are about; attachments,
tags, impact, urgency and estimatedResolutionTime play no role in any claim
and are omitted). -/
structure Ticket where
  id : Nat
  ticketNumber : String
  title : String
  description : String
  category : String
  priority : String
  status : Status
  createdBy : Nat
  assignedTo : Option Nat
  comments : List Comment
  resolution : Option String
  resolvedAt : Option Nat
  closedAt : Option Nat
  createdAt : Nat
deriving DecidableEq, Repr

/-- Result of a handler, by HTTP status: ok carries the JSON payload,
notFound is the 404 'Ticket not found' response, forbidden the 403
'Access denied' response, badRequest the 400 'Assignee not found'
response, serverError the generic 500 internal-error response. -/
inductive Res (α : Type) where
  | ok : α → Res α
  | notFound : Res α
  | forbidden : Res α
  | badRequest : Res α
  | serverError : Res α
deriving DecidableEq, Repr

/-! ## The ticket-number pre-save hook (Ticket.js lines 126-152) -/

/-- JavaScript String.prototype.split('-'): cut the string at every '-'. -/
def splitDashAux : List Char → List Char → List String
  | [], cur => [String.mk cur.reverse]
  | c :: rest, cur =>
    if c = '-' then String.mk cur.reverse :: splitDashAux rest []
    else splitDashAux rest (c :: cur)

/-- JavaScript tn.split('-') on the string tn. -/
def splitDash (s : String) : List String :=
  splitDashAux s.data []

/-- Accumulate the value of a leading run of decimal digits; the
accumulator is none while no digit has been consumed. -/
def parseIntDigits : List Char → Option Nat → Option Nat
  | [], acc => acc
  | c :: rest, acc =>
    if c.isDigit then parseIntDigits rest (some (10 * acc.getD 0 + (c.toNat - 48)))
    else acc

/-- JavaScript parseInt applied to a possibly-undefined string: undefined
parses to NaN (none); a defined string parses its leading decimal digits,
yielding NaN when there are none. (Real parseInt also skips leading
whitespace and a sign; the strings fed to it here, fragments of ticket
numbers, have neither.) -/
def jsParseInt : Option String → Option Nat
  | none => none
  | some s => parseIntDigits s.data none

/-- JavaScript String(n) on a possibly-NaN number. -/
def jsNumToString : Option Nat → String
  | none => "NaN"
  | some n => toString n

/-- JavaScript s.padStart(4, '0'). -/
def padStart4 (s : String) : String :=
  if 4 ≤ s.length then s
  else String.mk (List.replicate (4 - s.length) '0') ++ s

/-- Embedding of the ticket-number computation of the pre-save hook
(Ticket.js lines 126-152). ymd is the `${year}${month}${day}` string of
the save date; lastTicketNumber is the ticketNumber of the most recently
created ticket of the day window (none when no ticket exists there,
mirroring `if (lastTicket && lastTicket.ticketNumber)`). The hook runs
`parseInt(lastTicket.ticketNumber.split('-')[3])` and adds one,
defaulting to 1, then renders
`TKT-${year}${month}${day}-${String(sequenceNumber).padStart(4, '0')}`. -/
def generateTicketNumber (ymd : String) (lastTicketNumber : Option String) : String :=
  let sequenceNumber : Option Nat :=
    match lastTicketNumber with
    | none => some 1
    | some tn => (jsParseInt ((splitDash tn).get? 3)).map (· + 1)
  "TKT-" ++ ymd ++ "-" ++ padStart4 (jsNumToString sequenceNumber)

/-! ## The resolved/closed timestamp pre-save hook (Ticket.js lines 155-164) -/

/-- Embedding of the timestamp pre-save hook: when the status path is
modified, entering Resolved with resolvedAt unset stamps resolvedAt, else
entering Closed with closedAt unset stamps closedAt (the else-if of the
source). -/
def hookTimestamps (statusModified : Bool) (now : Nat) (t : Ticket) : Ticket :=
  if statusModified then
    if t.status = Status.Resolved ∧ t.resolvedAt = none then
      { t with resolvedAt := some now }
    else if t.status = Status.Closed ∧ t.closedAt = none then
      { t with closedAt := some now }
    else t
  else t

/-- Saving an already-stored ticket (document.save() on a loaded document):
the pre-save hooks run. The ticket-number hook is a no-op here because a
stored ticket already has a ticketNumber, so only the timestamp hook acts;
isModified('status') holds exactly when the status differs from the status
the document was loaded with (prevStatus). -/
def saveExisting (now : Nat) (prevStatus : Status) (t : Ticket) : Ticket :=
  hookTimestamps (decide (prevStatus ≠ t.status)) now t

/-! ## Shared pieces of the ticket handlers -/

/-- The access test repeated in getTicketById, updateTicket and addComment:
admin, or creator, or assignee. The source expresses its negation:
`req.user.role !== 'admin' && ticket.createdBy.toString() !== req.user.id
&& (!ticket.assignedTo || ticket.assignedTo.toString() !== req.user.id)`. -/
def hasTicketAccess (actor : Actor) (t : Ticket) : Bool :=
  actor.role = Role.admin ∨ t.createdBy = actor.id ∨ t.assignedTo = some actor.id

/-- Ticket.findById on the store. -/
def findById (store : List Ticket) (id : Nat) : Option Ticket :=
  store.find? (fun t => t.id = id)

/-- The store's update of the document with the given unique id (Mongoose
writes back by _id, which is unique in the collection). -/
def replaceById (id : Nat) (t2 : Ticket) : List Ticket → List Ticket
  | [] => []
  | u :: rest => if u.id = id then t2 :: rest else u :: replaceById id t2 rest

/-! ## getTicketById (ticket controller) -/

/-- Embedding of getTicketById: 404 when the id does not resolve, 403
'Access denied' when the actor is no admin, not the creator and not the
assignee; otherwise the full ticket document — comments included, with no
filtering of isInternal comments — is returned. -/
def getTicketById (store : List Ticket) (actor : Actor) (id : Nat) : Res Ticket :=
  match findById store id with
  | none => Res.notFound
  | some t => if hasTicketAccess actor t then Res.ok t else Res.forbidden

/-! ## updateTicket (ticket controller) -/

/-- One key/value pair of the update request body (req.body), restricted to
the Ticket schema fields a PUT /:id request can carry. -/
inductive FieldAssign where
  | title (v : String)
  | description (v : String)
  | priority (v : String)
  | status (v : Status)
  | assignedTo (v : Option Nat)
  | ticketNumber (v : String)
  | category (v : String)
  | resolution (v : String)
deriving DecidableEq, Repr

/-- Whether the request-body key survives the non-admin filter
`const allowedFields = ['title', 'description', 'priority']`. -/
def isAllowedField : FieldAssign → Bool
  | FieldAssign.title _ => true
  | FieldAssign.description _ => true
  | FieldAssign.priority _ => true
  | _ => false

/-- The deletion loop of updateTicket: every key of updates outside
allowedFields is deleted. -/
def restrictUpdates (patch : List FieldAssign) : List FieldAssign :=
  patch.filter isAllowedField

/-- Writing one request-body field onto the document. -/
def setField (t : Ticket) : FieldAssign → Ticket
  | FieldAssign.title v => { t with title := v }
  | FieldAssign.description v => { t with description := v }
  | FieldAssign.priority v => { t with priority := v }
  | FieldAssign.status v => { t with status := v }
  | FieldAssign.assignedTo v => { t with assignedTo := v }
  | FieldAssign.ticketNumber v => { t with ticketNumber := v }
  | FieldAssign.category v => { t with category := v }
  | FieldAssign.resolution v => { t with resolution := some v }

/-- Ticket.findByIdAndUpdate(id, updates): the update object is applied to
the document field by field. No pre-save hook runs on this Mongoose query
path — neither the ticket-number hook nor the timestamp hook. -/
def applyUpdates (t : Ticket) (patch : List FieldAssign) : Ticket :=
  patch.foldl setField t

/-- Embedding of updateTicket: resolve the id (404), check admin/creator/
assignee (403), delete the non-allowed keys for a non-admin actor, then
findByIdAndUpdate with the surviving updates, returning the new document. -/
def updateTicket (store : List Ticket) (actor : Actor) (id : Nat)
    (patch : List FieldAssign) : Res Ticket × List Ticket :=
  match findById store id with
  | none => (Res.notFound, store)
  | some t =>
    if hasTicketAccess actor t then
      let updates := if actor.role = Role.admin then patch else restrictUpdates patch
      let t2 := applyUpdates t updates
      (Res.ok t2, replaceById id t2 store)
    else (Res.forbidden, store)

/-! ## addComment (ticket controller) -/

/-- Embedding of addComment: resolve the id (404), check admin/creator/
assignee (403), compute `const commentIsInternal = isAdmin && isInternal`,
push the comment, save (the hooks run; status is unmodified), and answer
with `ticket.comments[ticket.comments.length - 1]`. The none branch of the
final match is unreachable: the comment list was just extended. -/
def addComment (store : List Ticket) (actor : Actor) (id : Nat)
    (message : String) (wantsInternal : Bool) (now : Nat) :
    Res Comment × List Ticket :=
  match findById store id with
  | none => (Res.notFound, store)
  | some t =>
    if hasTicketAccess actor t then
      let commentIsInternal := decide (actor.role = Role.admin) && wantsInternal
      let c : Comment :=
        { user := actor.id, message := message,
          isInternal := commentIsInternal, createdAt := now }
      let t2 := saveExisting now t.status { t with comments := t.comments ++ [c] }
      match t2.comments.getLast? with
      | some last => (Res.ok last, replaceById id t2 store)
      | none => (Res.serverError, store)
    else (Res.forbidden, store)

/-! ## assignTicket (ticket controller) -/

/-- Embedding of assignTicket (the route is admin-only via middleware; the
handler itself takes no actor). A truthy assignedTo must name an existing
user (else 400 'Assignee not found'); `ticket.assignedTo = assignedTo || null`
is stored, status advances Open → In Progress only when a truthy assignee
arrives while status is Open, and the document is saved (hooks run). -/
def assignTicket (store : List Ticket) (id : Nat) (assignee : Option Nat)
    (users : List Nat) (now : Nat) : Res Ticket × List Ticket :=
  match findById store id with
  | none => (Res.notFound, store)
  | some t =>
    match assignee with
    | some uid =>
      if users.contains uid then
        let t1 := { t with
          assignedTo := some uid,
          status := if t.status = Status.Open then Status.InProgress else t.status }
        let t2 := saveExisting now t.status t1
        (Res.ok t2, replaceById id t2 store)
      else (Res.badRequest, store)
    | none =>
      let t1 := { t with assignedTo := none }
      let t2 := saveExisting now t.status t1
      (Res.ok t2, replaceById id t2 store)

/-! ## createTicket (ticket controller) and the full save pipeline -/

/-- The draft fields of a create request relevant to the claims. -/
structure Draft where
  title : String
  description : String
  category : String
  priority : Option String
deriving DecidableEq, Repr

/-- The hook's day-window query: findOne createdAt in [startOfDay, endOfDay]
sorted by createdAt descending, i.e. the stored ticket with the greatest
createdAt inside the window (the first such on a tie). -/
def lastTicketToday (store : List Ticket) (dayStart dayEnd : Nat) : Option Ticket :=
  (store.filter (fun t => decide (dayStart ≤ t.createdAt) && decide (t.createdAt ≤ dayEnd))).foldl
    (fun acc t =>
      match acc with
      | none => some t
      | some u => if u.createdAt < t.createdAt then some t else some u)
    none

/-- A fresh store-assigned _id: one above every id in use. -/
def freshId (store : List Ticket) : Nat :=
  store.foldl (fun m t => max m t.id) 0 + 1

/-- Embedding of createTicket followed by ticket.save(): the new document
(status defaults to Open, priority to Medium, createdBy from the actor) runs
the ticket-number hook, which queries the day window and computes the number;
the insert is then subject to the unique index on ticketNumber. A duplicate
key is caught by the handler's catch-all, which answers with the generic 500
'Failed to create ticket' — there is no retry and no typed conflict error,
and the store is left unchanged. -/
def createTicket (store : List Ticket) (actor : Actor) (draft : Draft)
    (dayStart dayEnd now : Nat) (ymd : String) : Res Ticket × List Ticket :=
  let t0 : Ticket :=
    { id := freshId store, ticketNumber := "",
      title := draft.title, description := draft.description,
      category := draft.category, priority := draft.priority.getD "Medium",
      status := Status.Open, createdBy := actor.id, assignedTo := none,
      comments := [], resolution := none, resolvedAt := none, closedAt := none,
      createdAt := now }
  let lastNum := (lastTicketToday store dayStart dayEnd).map (fun t => t.ticketNumber)
  let t1 :=
    if t0.ticketNumber = "" then { t0 with ticketNumber := generateTicketNumber ymd lastNum }
    else t0
  if store.any (fun u => u.ticketNumber = t1.ticketNumber) then
    (Res.serverError, store)
  else (Res.ok t1, store ++ [t1])

/-! ## getTicketStats (ticket controller) -/

/-- The overview object of the stats aggregation. -/
structure StatsOverview where
  totalTickets : Nat
  openTickets : Nat
  inProgressTickets : Nat
  resolvedTickets : Nat
  closedTickets : Nat
deriving DecidableEq, Repr

/-- Number of stored tickets having the given status. -/
def statusCount (store : List Ticket) (s : Status) : Nat :=
  (store.filter (fun t => t.status = s)).length

/-- Embedding of the stats aggregation: one group over every document,
totalTickets counts all of them and the four conditional sums count the
statuses Open, In Progress, Resolved and Closed (the empty-store fallback
object of the handler is the same all-zero value this yields on []). -/
def getTicketStats (store : List Ticket) : StatsOverview :=
  { totalTickets := store.length,
    openTickets := statusCount store Status.Open,
    inProgressTickets := statusCount store Status.InProgress,
    resolvedTickets := statusCount store Status.Resolved,
    closedTickets := statusCount store Status.Closed }

/-! ## Helper definitions used only in theorem statements -/

/-- Whether a request-body entry is a ticketNumber key. -/
def mentionsTicketNumber : FieldAssign → Bool
  | FieldAssign.ticketNumber _ => true
  | _ => false

/-- The value the title key of an update body ends up with: the last
title entry wins (a JavaScript object keeps one value per key). -/
def lastTitle : List FieldAssign → Option String
  | [] => none
  | a :: l =>
    match lastTitle l with
    | some v => some v
    | none => match a with | FieldAssign.title v => some v | _ => none

/-- The value the description key of an update body ends up with. -/
def lastDescription : List FieldAssign → Option String
  | [] => none
  | a :: l =>
    match lastDescription l with
    | some v => some v
    | none => match a with | FieldAssign.description v => some v | _ => none

/-- The value the priority key of an update body ends up with. -/
def lastPriority : List FieldAssign → Option String
  | [] => none
  | a :: l =>
    match lastPriority l with
    | some v => some v
    | none => match a with | FieldAssign.priority v => some v | _ => none

/-! ## Concrete fixtures used by the concrete-input theorems -/

/-- An internal comment left by a support user. -/
def internalNote : Comment :=
  { user := 9, message := "Replace the fuser unit", isInternal := true, createdAt := 50 }

/-- A stored ticket: created by user 7, assigned to user 8, carrying one
internal comment. -/
def printerTicket : Ticket :=
  { id := 1, ticketNumber := "TKT-20261012-0001", title := "Printer offline",
    description := "The third-floor printer rejects all jobs",
    category := "Printer Issue", priority := "Medium", status := Status.Open,
    createdBy := 7, assignedTo := some 8, comments := [internalNote],
    resolution := none, resolvedAt := none, closedAt := none, createdAt := 100 }

/-- The first ticket created on the sample day. -/
def firstTicketOfDay : Ticket :=
  { id := 1, ticketNumber := "TKT-20261012-0001", title := "Printer offline",
    description := "The third-floor printer rejects all jobs",
    category := "Printer Issue", priority := "Medium", status := Status.Open,
    createdBy := 7, assignedTo := none, comments := [],
    resolution := none, resolvedAt := none, closedAt := none, createdAt := 100 }

/-- The second ticket of the same day, carrying the number the hook
actually computes for it. -/
def nanTicketOfDay : Ticket :=
  { id := 2, ticketNumber := "TKT-20261012-0NaN", title := "Mouse is broken",
    description := "The left button of the mouse does not respond",
    category := "Hardware Problem", priority := "Medium", status := Status.Open,
    createdBy := 7, assignedTo := none, comments := [],
    resolution := none, resolvedAt := none, closedAt := none, createdAt := 200 }

/-- The store after two same-day creations. -/
def sameDayStore : List Ticket := [firstTicketOfDay, nanTicketOfDay]

/-- A well-formed create request. -/
def basicDraft : Draft :=
  { title := "VPN will not connect",
    description := "The VPN client times out during login",
    category := "Network Issue", priority := none }

/-! ## Helper lemmas -/

theorem hasTicketAccess_eq_false {actor : Actor} {t : Ticket}
    (hrole : actor.role ≠ Role.admin) (hcreator : t.createdBy ≠ actor.id)
    (hassigned : t.assignedTo ≠ some actor.id) :
    hasTicketAccess actor t = false := by
  simp only [hasTicketAccess, decide_eq_false_iff_not]
  push_neg
  exact ⟨hrole, hcreator, hassigned⟩

theorem hookTimestamps_comments (b : Bool) (now : Nat) (t : Ticket) :
    (hookTimestamps b now t).comments = t.comments := by
  unfold hookTimestamps
  split_ifs <;> rfl

theorem hookTimestamps_ticketNumber (b : Bool) (now : Nat) (t : Ticket) :
    (hookTimestamps b now t).ticketNumber = t.ticketNumber := by
  unfold hookTimestamps
  split_ifs <;> rfl

theorem hookTimestamps_status (b : Bool) (now : Nat) (t : Ticket) :
    (hookTimestamps b now t).status = t.status := by
  unfold hookTimestamps
  split_ifs <;> rfl

theorem hookTimestamps_eq_self (b : Bool) (now : Nat) (t : Ticket)
    (h1 : t.status ≠ Status.Resolved) (h2 : t.status ≠ Status.Closed) :
    hookTimestamps b now t = t := by
  unfold hookTimestamps
  split_ifs with hb hr hc
  · exact absurd hr.1 h1
  · exact absurd hc.1 h2
  · rfl
  · rfl

theorem saveExisting_comments (now : Nat) (prev : Status) (t : Ticket) :
    (saveExisting now prev t).comments = t.comments :=
  hookTimestamps_comments _ now t

theorem saveExisting_ticketNumber (now : Nat) (prev : Status) (t : Ticket) :
    (saveExisting now prev t).ticketNumber = t.ticketNumber :=
  hookTimestamps_ticketNumber _ now t

theorem saveExisting_of_status_eq (now : Nat) (prev : Status) (t : Ticket)
    (h : t.status = prev) : saveExisting now prev t = t := by
  unfold saveExisting
  rw [h]
  simp [hookTimestamps]

theorem saveExisting_of_other_status (now : Nat) (prev : Status) (t : Ticket)
    (h1 : t.status ≠ Status.Resolved) (h2 : t.status ≠ Status.Closed) :
    saveExisting now prev t = t :=
  hookTimestamps_eq_self _ now t h1 h2

theorem findById_pred {store : List Ticket} {id : Nat} {t : Ticket}
    (hfind : findById store id = some t) : t.id = id := by
  have := List.find?_some hfind
  simpa using this

theorem replaceById_map {α : Type} (f : Ticket → α) (id : Nat) (t t2 : Ticket)
    (store : List Ticket) (hfind : findById store id = some t) (hf : f t2 = f t) :
    (replaceById id t2 store).map f = store.map f := by
  induction store with
  | nil => simp [findById] at hfind
  | cons u rest ih =>
    by_cases h : u.id = id
    · have hu : t = u := by
        have : findById (u :: rest) id = some u := by
          simp [findById, List.find?_cons_of_pos, h]
        rw [this] at hfind
        exact (Option.some.injEq _ _ ▸ hfind).symm
      subst hu
      simp [replaceById, h, hf]
    · have hrest : findById rest id = some t := by
        simpa [findById, List.find?_cons_of_neg, h] using hfind
      simp [replaceById, h, ih hrest]

theorem findById_replaceById (id : Nat) (t t2 : Ticket) (store : List Ticket)
    (hfind : findById store id = some t) (hid : t2.id = id) :
    findById (replaceById id t2 store) id = some t2 := by
  induction store with
  | nil => simp [findById] at hfind
  | cons u rest ih =>
    by_cases h : u.id = id
    · simp [replaceById, h, findById, List.find?_cons_of_pos, hid]
    · have hrest : findById rest id = some t := by
        simpa [findById, List.find?_cons_of_neg, h] using hfind
      have hr := ih hrest
      simp only [replaceById, if_neg h]
      simpa [findById, List.find?_cons_of_neg, h] using hr

theorem hookTimestamps_id (b : Bool) (now : Nat) (t : Ticket) :
    (hookTimestamps b now t).id = t.id := by
  unfold hookTimestamps
  split_ifs <;> rfl

theorem saveExisting_id (now : Nat) (prev : Status) (t : Ticket) :
    (saveExisting now prev t).id = t.id :=
  hookTimestamps_id _ now t

theorem restrictUpdates_cons (a : FieldAssign) (l : List FieldAssign) :
    restrictUpdates (a :: l) =
      if isAllowedField a then a :: restrictUpdates l else restrictUpdates l := by
  simp [restrictUpdates, List.filter_cons]

theorem restrict_no_ticketNumber (patch : List FieldAssign) :
    (restrictUpdates patch).all (fun a => !mentionsTicketNumber a) = true := by
  simp only [List.all_eq_true]
  intro a ha
  have hallow := (List.mem_filter.mp ha).2
  cases a
  case ticketNumber v => simp [isAllowedField] at hallow
  all_goals simp [mentionsTicketNumber]

theorem applyUpdates_ticketNumber_of_no_key (l : List FieldAssign)
    (h : l.all (fun a => !mentionsTicketNumber a) = true) :
    ∀ t : Ticket, (applyUpdates t l).ticketNumber = t.ticketNumber := by
  induction l with
  | nil => intro t; rfl
  | cons a l ih =>
    intro t
    have ha : mentionsTicketNumber a = false := by
      simp [List.all_cons] at h
      simpa using h.1
    have hl : l.all (fun a => !mentionsTicketNumber a) = true := by
      simp [List.all_cons] at h
      simpa using h.2
    cases a with
    | ticketNumber v => simp [mentionsTicketNumber] at ha
    | title v => exact ih hl _
    | description v => exact ih hl _
    | priority v => exact ih hl _
    | status v => exact ih hl _
    | assignedTo v => exact ih hl _
    | category v => exact ih hl _
    | resolution v => exact ih hl _

theorem applyUpdates_allowed_preserves (l : List FieldAssign)
    (hall : ∀ a ∈ l, isAllowedField a = true) :
    ∀ t : Ticket,
      (applyUpdates t l).status = t.status ∧
      (applyUpdates t l).assignedTo = t.assignedTo ∧
      (applyUpdates t l).ticketNumber = t.ticketNumber ∧
      (applyUpdates t l).category = t.category ∧
      (applyUpdates t l).resolution = t.resolution := by
  induction l with
  | nil => intro t; exact ⟨rfl, rfl, rfl, rfl, rfl⟩
  | cons a l ih =>
    intro t
    have ha : isAllowedField a = true := hall a (by simp)
    have hrest : ∀ a ∈ l, isAllowedField a = true :=
      fun b hb => hall b (by simp [hb])
    cases a with
    | title v => exact ih hrest _
    | description v => exact ih hrest _
    | priority v => exact ih hrest _
    | status v => simp [isAllowedField] at ha
    | assignedTo v => simp [isAllowedField] at ha
    | ticketNumber v => simp [isAllowedField] at ha
    | category v => simp [isAllowedField] at ha
    | resolution v => simp [isAllowedField] at ha

theorem mem_restrictUpdates_allowed (patch : List FieldAssign) :
    ∀ a ∈ restrictUpdates patch, isAllowedField a = true := by
  intro a ha
  exact (List.mem_filter.mp ha).2

theorem applyUpdates_restrict_applied (patch : List FieldAssign) :
    ∀ t : Ticket,
      (applyUpdates t (restrictUpdates patch)).title
        = (lastTitle patch).getD t.title ∧
      (applyUpdates t (restrictUpdates patch)).description
        = (lastDescription patch).getD t.description ∧
      (applyUpdates t (restrictUpdates patch)).priority
        = (lastPriority patch).getD t.priority := by
  induction patch with
  | nil => intro t; exact ⟨rfl, rfl, rfl⟩
  | cons a l ih =>
    intro t
    rw [restrictUpdates_cons]
    cases a with
    | title v =>
      have hstep : applyUpdates t (FieldAssign.title v :: restrictUpdates l)
          = applyUpdates { t with title := v } (restrictUpdates l) := rfl
      simp only [isAllowedField, if_true, hstep]
      obtain ⟨ihT, ihD, ihP⟩ := ih { t with title := v }
      refine ⟨?_, ?_, ?_⟩
      · rw [ihT]; cases hc : lastTitle l <;> simp [lastTitle, hc]
      · rw [ihD]; cases hc : lastDescription l <;> simp [lastDescription, hc]
      · rw [ihP]; cases hc : lastPriority l <;> simp [lastPriority, hc]
    | description v =>
      have hstep : applyUpdates t (FieldAssign.description v :: restrictUpdates l)
          = applyUpdates { t with description := v } (restrictUpdates l) := rfl
      simp only [isAllowedField, if_true, hstep]
      obtain ⟨ihT, ihD, ihP⟩ := ih { t with description := v }
      refine ⟨?_, ?_, ?_⟩
      · rw [ihT]; cases hc : lastTitle l <;> simp [lastTitle, hc]
      · rw [ihD]; cases hc : lastDescription l <;> simp [lastDescription, hc]
      · rw [ihP]; cases hc : lastPriority l <;> simp [lastPriority, hc]
    | priority v =>
      have hstep : applyUpdates t (FieldAssign.priority v :: restrictUpdates l)
          = applyUpdates { t with priority := v } (restrictUpdates l) := rfl
      simp only [isAllowedField, if_true, hstep]
      obtain ⟨ihT, ihD, ihP⟩ := ih { t with priority := v }
      refine ⟨?_, ?_, ?_⟩
      · rw [ihT]; cases hc : lastTitle l <;> simp [lastTitle, hc]
      · rw [ihD]; cases hc : lastDescription l <;> simp [lastDescription, hc]
      · rw [ihP]; cases hc : lastPriority l <;> simp [lastPriority, hc]
    | status v =>
      simp only [isAllowedField, Bool.false_eq_true, if_false]
      obtain ⟨ihT, ihD, ihP⟩ := ih t
      refine ⟨?_, ?_, ?_⟩
      · rw [ihT]; cases hc : lastTitle l <;> simp [lastTitle, hc]
      · rw [ihD]; cases hc : lastDescription l <;> simp [lastDescription, hc]
      · rw [ihP]; cases hc : lastPriority l <;> simp [lastPriority, hc]
    | assignedTo v =>
      simp only [isAllowedField, Bool.false_eq_true, if_false]
      obtain ⟨ihT, ihD, ihP⟩ := ih t
      refine ⟨?_, ?_, ?_⟩
      · rw [ihT]; cases hc : lastTitle l <;> simp [lastTitle, hc]
      · rw [ihD]; cases hc : lastDescription l <;> simp [lastDescription, hc]
      · rw [ihP]; cases hc : lastPriority l <;> simp [lastPriority, hc]
    | ticketNumber v =>
      simp only [isAllowedField, Bool.false_eq_true, if_false]
      obtain ⟨ihT, ihD, ihP⟩ := ih t
      refine ⟨?_, ?_, ?_⟩
      · rw [ihT]; cases hc : lastTitle l <;> simp [lastTitle, hc]
      · rw [ihD]; cases hc : lastDescription l <;> simp [lastDescription, hc]
      · rw [ihP]; cases hc : lastPriority l <;> simp [lastPriority, hc]
    | category v =>
      simp only [isAllowedField, Bool.false_eq_true, if_false]
      obtain ⟨ihT, ihD, ihP⟩ := ih t
      refine ⟨?_, ?_, ?_⟩
      · rw [ihT]; cases hc : lastTitle l <;> simp [lastTitle, hc]
      · rw [ihD]; cases hc : lastDescription l <;> simp [lastDescription, hc]
      · rw [ihP]; cases hc : lastPriority l <;> simp [lastPriority, hc]
    | resolution v =>
      simp only [isAllowedField, Bool.false_eq_true, if_false]
      obtain ⟨ihT, ihD, ihP⟩ := ih t
      refine ⟨?_, ?_, ?_⟩
      · rw [ihT]; cases hc : lastTitle l <;> simp [lastTitle, hc]
      · rw [ihD]; cases hc : lastDescription l <;> simp [lastDescription, hc]
      · rw [ihP]; cases hc : lastPriority l <;> simp [lastPriority, hc]

/-! ## Claim theorems on concrete inputs -/

/-- C1: the claim fails on the code. getTicketById performs no filtering of
isInternal comments: the non-admin creator (user 7) of printerTicket receives
the full document, internal comment included. -/
theorem getTicket_leaks_internal_comment_to_nonadmin_creator :
    getTicketById [printerTicket] { id := 7, role := Role.user } 1
      = Res.ok printerTicket ∧
    printerTicket.comments.any (fun c => c.isInternal) = true := by decide

/-- C2: the claim fails on the code. The first ticket of a day is numbered
TKT-20261012-0001, but the hook then parses split('-')[3] of that number —
an index past the three fragments, hence undefined — so parseInt yields NaN
and the second ticket of the day is numbered TKT-20261012-0NaN instead of
TKT-20261012-0002; the third computation repeats TKT-20261012-0NaN, a
duplicate. -/
theorem ticketNumber_sequence_collapses_to_NaN :
    generateTicketNumber "20261012" none = "TKT-20261012-0001" ∧
    generateTicketNumber "20261012" (some "TKT-20261012-0001")
      = "TKT-20261012-0NaN" ∧
    generateTicketNumber "20261012" (some "TKT-20261012-0NaN")
      = "TKT-20261012-0NaN" := by decide

/-- C3 counterexample: when the computed ticketNumber collides with a stored
one (third creation of the day: the hook computes TKT-20261012-0NaN again),
createTicket does not retry and does not produce a typed conflict error; the
duplicate-key failure is caught and answered as the generic 500 response,
with the store unchanged. -/
theorem create_on_conflict_answers_generic_500 :
    createTicket sameDayStore { id := 7, role := Role.user } basicDraft
        0 999 300 "20261012"
      = (Res.serverError, sameDayStore) := by decide

/-- C5 counterexample: for a non-admin stranger (user 99, neither creator 7
nor assignee 8), reading an existing ticket answers the 403 'Access denied'
response, while a nonexistent id answers the 404 'Ticket not found'
response — two distinguishable results, so denial leaks the ticket's
existence, contrary to the claim. -/
theorem denied_read_distinct_from_notFound :
    getTicketById [printerTicket] { id := 99, role := Role.user } 1
      = Res.forbidden ∧
    getTicketById [printerTicket] { id := 99, role := Role.user } 2
      = Res.notFound ∧
    (Res.forbidden : Res Ticket) ≠ Res.notFound := by decide

/-- C6: the claim fails on the code. updateTicket goes through
findByIdAndUpdate, which runs no pre-save hook, so an admin moving a ticket
into Resolved (or Closed) leaves resolvedAt (closedAt) unset — and no other
code path ever reaches Resolved or Closed. -/
theorem resolved_update_skips_timestamp_hook :
    updateTicket [printerTicket] { id := 2, role := Role.admin } 1
        [FieldAssign.status Status.Resolved]
      = (Res.ok { printerTicket with status := Status.Resolved },
         [{ printerTicket with status := Status.Resolved }]) ∧
    ({ printerTicket with status := Status.Resolved } : Ticket).resolvedAt = none ∧
    updateTicket [printerTicket] { id := 2, role := Role.admin } 1
        [FieldAssign.status Status.Closed]
      = (Res.ok { printerTicket with status := Status.Closed },
         [{ printerTicket with status := Status.Closed }]) ∧
    ({ printerTicket with status := Status.Closed } : Ticket).closedAt = none := by decide

/-- C7 counterexample: an admin update whose body carries a ticketNumber key
overwrites the stored ticketNumber — updateTicket passes an admin's update
object to findByIdAndUpdate unfiltered. -/
theorem admin_patch_overwrites_ticketNumber :
    (updateTicket [printerTicket] { id := 2, role := Role.admin } 1
        [FieldAssign.ticketNumber "TKT-FORGED-9999"]).1
      = Res.ok { printerTicket with ticketNumber := "TKT-FORGED-9999" } ∧
    printerTicket.ticketNumber ≠ "TKT-FORGED-9999" := by decide

/-! ## General claim theorems -/

/-- C5 amended: a non-admin actor who is neither creator nor assignee of an
existing ticket receives the 403 'Access denied' response from getTicketById,
updateTicket and addComment — a result carrying no ticket content, but one
that is distinct from the 404 'Ticket not found' response of a nonexistent
id, so denial leaks the ticket's existence. -/
theorem outsider_gets_denied_not_content (store : List Ticket) (actor : Actor)
    (id : Nat) (t : Ticket) (patch : List FieldAssign) (msg : String)
    (w : Bool) (now : Nat)
    (hfind : findById store id = some t)
    (hrole : actor.role ≠ Role.admin)
    (hcreator : t.createdBy ≠ actor.id)
    (hassigned : t.assignedTo ≠ some actor.id) :
    getTicketById store actor id = Res.forbidden ∧
    updateTicket store actor id patch = (Res.forbidden, store) ∧
    addComment store actor id msg w now = (Res.forbidden, store) ∧
    (Res.forbidden : Res Ticket) ≠ Res.notFound := by
  have hacc := hasTicketAccess_eq_false hrole hcreator hassigned
  refine ⟨?_, ?_, ?_, by simp⟩
  · simp [getTicketById, hfind, hacc]
  · simp [updateTicket, hfind, hacc]
  · simp [addComment, hfind, hacc]

/-- Witness for the C5 theorem at a concrete input: user 99 against
printerTicket (creator 7, assignee 8). -/
theorem outsider_gets_denied_witness :
    getTicketById [printerTicket] { id := 99, role := Role.user } 1
      = Res.forbidden ∧
    updateTicket [printerTicket] { id := 99, role := Role.user } 1
        [FieldAssign.title "Probe title"]
      = (Res.forbidden, [printerTicket]) ∧
    addComment [printerTicket] { id := 99, role := Role.user } 1 "probe" false 7
      = (Res.forbidden, [printerTicket]) ∧
    (Res.forbidden : Res Ticket) ≠ Res.notFound :=
  outsider_gets_denied_not_content [printerTicket] { id := 99, role := Role.user }
    1 printerTicket [FieldAssign.title "Probe title"] "probe" false 7
    (by decide) (by decide) (by decide) (by decide)

/-- C3 amended: whenever the ticket number computed by the pre-save hook
collides with a stored one, createTicket makes that single attempt, the
unique-index violation is caught by the handler's catch-all, and the caller
receives the generic 500 response with the store unchanged: no retry, and no
typed conflict error exists anywhere in the code. -/
theorem create_conflict_single_attempt (store : List Ticket) (actor : Actor)
    (draft : Draft) (dayStart dayEnd now : Nat) (ymd : String)
    (hconflict : store.any (fun u => u.ticketNumber =
        generateTicketNumber ymd
          ((lastTicketToday store dayStart dayEnd).map (fun t => t.ticketNumber)))
      = true) :
    createTicket store actor draft dayStart dayEnd now ymd
      = (Res.serverError, store) := by
  simp [createTicket, hconflict]

/-- Witness for the C3 theorem at a concrete input: the third creation on
the sample day collides with the stored TKT-20261012-0NaN. -/
theorem create_conflict_single_attempt_witness :
    createTicket sameDayStore { id := 3, role := Role.admin } basicDraft
        0 999 400 "20261012"
      = (Res.serverError, sameDayStore) :=
  create_conflict_single_attempt sameDayStore { id := 3, role := Role.admin }
    basicDraft 0 999 400 "20261012" (by decide)

/-- Every ticket carries exactly one of the five statuses, so the five
per-status counts partition the store. -/
theorem statusCounts_partition (store : List Ticket) :
    statusCount store Status.Open + statusCount store Status.InProgress
      + statusCount store Status.Resolved + statusCount store Status.Closed
      + statusCount store Status.WaitingForResponse = store.length := by
  induction store with
  | nil => rfl
  | cons t rest ih =>
    cases h : t.status <;>
      simp [statusCount, List.filter_cons, h] at ih ⊢ <;> omega

/-- C10: getTicketStats counts every ticket in totalTickets but keeps
per-status counters only for Open, In Progress, Resolved and Closed;
a 'Waiting for Response' ticket appears in no counter, so the four counters
sum to totalTickets minus the number of waiting tickets. -/
theorem stats_waiting_tickets_uncounted (store : List Ticket) :
    (getTicketStats store).totalTickets = store.length ∧
    (getTicketStats store).openTickets + (getTicketStats store).inProgressTickets
      + (getTicketStats store).resolvedTickets + (getTicketStats store).closedTickets
      + statusCount store Status.WaitingForResponse
      = (getTicketStats store).totalTickets ∧
    (getTicketStats store).openTickets + (getTicketStats store).inProgressTickets
      + (getTicketStats store).resolvedTickets + (getTicketStats store).closedTickets
      = (getTicketStats store).totalTickets
        - statusCount store Status.WaitingForResponse := by
  have h := statusCounts_partition store
  refine ⟨rfl, ?_, ?_⟩ <;> simp [getTicketStats] <;> omega

/-- C4: a non-admin creator or assignee's update never errors on account of
the request body's keys: every key outside title/description/priority is
deleted before findByIdAndUpdate, so status, assignedTo, ticketNumber,
category and resolution are unchanged on the returned (stored) document,
while the body's title, description and priority values are applied. -/
theorem nonadmin_update_applies_only_allowed (store : List Ticket)
    (actor : Actor) (id : Nat) (patch : List FieldAssign) (t : Ticket)
    (hrole : actor.role ≠ Role.admin)
    (hfind : findById store id = some t)
    (hperm : hasTicketAccess actor t = true) :
    ∃ r, (updateTicket store actor id patch).1 = Res.ok r ∧
      r.status = t.status ∧ r.assignedTo = t.assignedTo ∧
      r.ticketNumber = t.ticketNumber ∧ r.category = t.category ∧
      r.resolution = t.resolution ∧
      r.title = (lastTitle patch).getD t.title ∧
      r.description = (lastDescription patch).getD t.description ∧
      r.priority = (lastPriority patch).getD t.priority := by
  have hpres := applyUpdates_allowed_preserves (restrictUpdates patch)
    (mem_restrictUpdates_allowed patch) t
  have happ := applyUpdates_restrict_applied patch t
  exact ⟨applyUpdates t (restrictUpdates patch),
    by simp [updateTicket, hfind, hperm, hrole],
    hpres.1, hpres.2.1, hpres.2.2.1, hpres.2.2.2.1, hpres.2.2.2.2,
    happ.1, happ.2.1, happ.2.2⟩

/-- Witness for the C4 theorem at a concrete input: user 7 (the creator,
non-admin) sends a body carrying status, assignedTo and a new title. -/
theorem nonadmin_update_witness :
    ∃ r, (updateTicket [printerTicket] { id := 7, role := Role.user } 1
        [FieldAssign.status Status.Resolved, FieldAssign.assignedTo none,
         FieldAssign.title "Printer offline again"]).1 = Res.ok r ∧
      r.status = printerTicket.status ∧
      r.assignedTo = printerTicket.assignedTo ∧
      r.ticketNumber = printerTicket.ticketNumber ∧
      r.category = printerTicket.category ∧
      r.resolution = printerTicket.resolution ∧
      r.title = (lastTitle [FieldAssign.status Status.Resolved,
        FieldAssign.assignedTo none,
        FieldAssign.title "Printer offline again"]).getD printerTicket.title ∧
      r.description = (lastDescription [FieldAssign.status Status.Resolved,
        FieldAssign.assignedTo none,
        FieldAssign.title "Printer offline again"]).getD printerTicket.description ∧
      r.priority = (lastPriority [FieldAssign.status Status.Resolved,
        FieldAssign.assignedTo none,
        FieldAssign.title "Printer offline again"]).getD printerTicket.priority :=
  nonadmin_update_applies_only_allowed [printerTicket]
    { id := 7, role := Role.user } 1
    [FieldAssign.status Status.Resolved, FieldAssign.assignedTo none,
     FieldAssign.title "Printer offline again"] printerTicket
    (by decide) (by decide) (by decide)

/-- C8: assignTicket with a non-null existing assignee moves an Open ticket
to In Progress and leaves any other status alone; clearing the assignee
never changes the status; resolvedAt and closedAt are untouched either way. -/
theorem assignTicket_advances_only_open (store : List Ticket) (id : Nat)
    (assignee : Option Nat) (users : List Nat) (now : Nat) (t : Ticket)
    (hfind : findById store id = some t)
    (hvalid : assignee.all (fun uid => users.contains uid) = true) :
    ∃ r, (assignTicket store id assignee users now).1 = Res.ok r ∧
      r.assignedTo = assignee ∧
      r.status = (if assignee ≠ none ∧ t.status = Status.Open
                  then Status.InProgress else t.status) ∧
      r.resolvedAt = t.resolvedAt ∧ r.closedAt = t.closedAt := by
  cases assignee with
  | none =>
    have hsave : saveExisting now t.status { t with assignedTo := none }
        = { t with assignedTo := none } :=
      saveExisting_of_status_eq now t.status _ rfl
    exact ⟨{ t with assignedTo := none },
      by simp [assignTicket, hfind, hsave], rfl, by simp, rfl, rfl⟩
  | some uid =>
    have hmem : uid ∈ users := by simpa using hvalid
    by_cases hopen : t.status = Status.Open
    · have hsave : saveExisting now Status.Open
          { t with assignedTo := some uid, status := Status.InProgress }
          = { t with assignedTo := some uid, status := Status.InProgress } :=
        saveExisting_of_other_status now Status.Open _ (by simp) (by simp)
      refine ⟨{ t with assignedTo := some uid, status := Status.InProgress },
        ?_, rfl, by simp [hopen], rfl, rfl⟩
      simp [assignTicket, hfind, hmem, hopen, hsave]
    · have hsave : saveExisting now t.status
          { t with assignedTo := some uid, status := t.status }
          = { t with assignedTo := some uid, status := t.status } :=
        saveExisting_of_status_eq now t.status _ rfl
      refine ⟨{ t with assignedTo := some uid, status := t.status },
        ?_, rfl, by simp [hopen], rfl, rfl⟩
      simp [assignTicket, hfind, hmem, hopen, hsave]

/-- Witness for the C8 theorem at a concrete input: assigning user 8 to the
Open printerTicket. -/
theorem assignTicket_advances_witness :
    ∃ r, (assignTicket [printerTicket] 1 (some 8) [8, 9] 7).1 = Res.ok r ∧
      r.assignedTo = some 8 ∧
      r.status = (if (some 8 : Option Nat) ≠ none ∧
                    printerTicket.status = Status.Open
                  then Status.InProgress else printerTicket.status) ∧
      r.resolvedAt = printerTicket.resolvedAt ∧
      r.closedAt = printerTicket.closedAt :=
  assignTicket_advances_only_open [printerTicket] 1 (some 8) [8, 9] 7
    printerTicket (by decide) (by decide)

/-- Computed form of a permitted addComment: the handler answers with the
pushed comment and writes back the saved document. -/
theorem addComment_run (store : List Ticket) (actor : Actor) (id : Nat)
    (msg : String) (w : Bool) (now : Nat) (t : Ticket)
    (hfind : findById store id = some t)
    (hperm : hasTicketAccess actor t = true) :
    addComment store actor id msg w now
      = (Res.ok ⟨actor.id, msg, decide (actor.role = Role.admin) && w, now⟩,
         replaceById id
           (saveExisting now t.status
             { t with comments := t.comments
                 ++ [⟨actor.id, msg, decide (actor.role = Role.admin) && w, now⟩] })
           store) := by
  have hcm : (saveExisting now t.status
      { t with comments := t.comments
          ++ [⟨actor.id, msg, decide (actor.role = Role.admin) && w, now⟩] }).comments
      = t.comments
          ++ [⟨actor.id, msg, decide (actor.role = Role.admin) && w, now⟩] := by
    rw [saveExisting_comments]
  have hlast : (saveExisting now t.status
      { t with comments := t.comments
          ++ [⟨actor.id, msg, decide (actor.role = Role.admin) && w, now⟩] }).comments.getLast?
      = some ⟨actor.id, msg, decide (actor.role = Role.admin) && w, now⟩ := by
    rw [hcm]
    exact List.getLast?_concat _
  simp only [addComment, hfind, hperm, if_true]
  rw [hlast]

/-- C9: for a permitted actor, addComment stores the comment with effective
isInternal equal to wantsInternal AND (role = admin) — a non-admin's request
for internal visibility is downgraded, never rejected — and answers with the
appended record, which the stored ticket's comment list now ends with. -/
theorem addComment_internal_iff_admin (store : List Ticket) (actor : Actor)
    (id : Nat) (msg : String) (w : Bool) (now : Nat) (t : Ticket)
    (hfind : findById store id = some t)
    (hperm : hasTicketAccess actor t = true) :
    ∃ c, (addComment store actor id msg w now).1 = Res.ok c ∧
      c.isInternal = (w && decide (actor.role = Role.admin)) ∧
      c.message = msg ∧ c.user = actor.id ∧
      ∃ t2, findById (addComment store actor id msg w now).2 id = some t2 ∧
        t2.comments = t.comments ++ [c] := by
  have hrun := addComment_run store actor id msg w now t hfind hperm
  refine ⟨⟨actor.id, msg, decide (actor.role = Role.admin) && w, now⟩,
    by rw [hrun], Bool.and_comm _ _, rfl, rfl,
    saveExisting now t.status
      { t with comments := t.comments
          ++ [⟨actor.id, msg, decide (actor.role = Role.admin) && w, now⟩] },
    ?_, by rw [saveExisting_comments]⟩
  rw [hrun]
  exact findById_replaceById id t _ store hfind
    (by rw [saveExisting_id]; simpa using findById_pred hfind)

/-- Witness for the C9 theorem at a concrete input: the non-admin creator
(user 7) asks for an internal comment; the stored flag is false. -/
theorem addComment_internal_witness :
    ∃ c, (addComment [printerTicket] { id := 7, role := Role.user } 1
        "Any progress on this?" true 7).1 = Res.ok c ∧
      c.isInternal = (true && decide (({ id := 7, role := Role.user } : Actor).role
        = Role.admin)) ∧
      c.message = "Any progress on this?" ∧ c.user = 7 ∧
      ∃ t2, findById (addComment [printerTicket] { id := 7, role := Role.user } 1
          "Any progress on this?" true 7).2 1 = some t2 ∧
        t2.comments = printerTicket.comments ++ [c] :=
  addComment_internal_iff_admin [printerTicket] { id := 7, role := Role.user }
    1 "Any progress on this?" true 7 printerTicket (by decide) (by decide)

/-- C7 amended: ticketNumber is computed only at creation. An update whose
body has no ticketNumber key leaves it unchanged, a non-admin update leaves
it unchanged whatever the body holds (the key is deleted), and addComment
and assignTicket never change any stored ticketNumber; only an admin update
whose body explicitly carries a ticketNumber key can overwrite it. -/
theorem ticketNumber_set_only_at_creation :
    (∀ (store : List Ticket) (actor : Actor) (id : Nat)
        (patch : List FieldAssign) (t : Ticket),
        findById store id = some t →
        hasTicketAccess actor t = true →
        patch.all (fun a => !mentionsTicketNumber a) = true →
        ∃ r, (updateTicket store actor id patch).1 = Res.ok r ∧
          r.ticketNumber = t.ticketNumber) ∧
    (∀ (store : List Ticket) (actor : Actor) (id : Nat)
        (patch : List FieldAssign) (t : Ticket),
        findById store id = some t →
        hasTicketAccess actor t = true →
        actor.role ≠ Role.admin →
        ∃ r, (updateTicket store actor id patch).1 = Res.ok r ∧
          r.ticketNumber = t.ticketNumber) ∧
    (∀ (store : List Ticket) (actor : Actor) (id : Nat) (msg : String)
        (w : Bool) (now : Nat),
        ((addComment store actor id msg w now).2).map (fun u => u.ticketNumber)
          = store.map (fun u => u.ticketNumber)) ∧
    (∀ (store : List Ticket) (id : Nat) (assignee : Option Nat)
        (users : List Nat) (now : Nat),
        ((assignTicket store id assignee users now).2).map (fun u => u.ticketNumber)
          = store.map (fun u => u.ticketNumber)) := by
  refine ⟨?_, ?_, ?_, ?_⟩
  · intro store actor id patch t hfind hperm hkey
    by_cases hadm : actor.role = Role.admin
    · exact ⟨applyUpdates t patch,
        by simp [updateTicket, hfind, hperm, hadm],
        applyUpdates_ticketNumber_of_no_key patch hkey t⟩
    · exact ⟨applyUpdates t (restrictUpdates patch),
        by simp [updateTicket, hfind, hperm, hadm],
        applyUpdates_ticketNumber_of_no_key _ (restrict_no_ticketNumber patch) t⟩
  · intro store actor id patch t hfind hperm hrole
    exact ⟨applyUpdates t (restrictUpdates patch),
      by simp [updateTicket, hfind, hperm, hrole],
      applyUpdates_ticketNumber_of_no_key _ (restrict_no_ticketNumber patch) t⟩
  · intro store actor id msg w now
    cases hfind : findById store id with
    | none => simp [addComment, hfind]
    | some t =>
      by_cases hperm : hasTicketAccess actor t = true
      · rw [addComment_run store actor id msg w now t hfind hperm]
        exact replaceById_map _ id t _ store hfind (by rw [saveExisting_ticketNumber])
      · simp [addComment, hfind, hperm]
  · intro store id assignee users now
    cases hfind : findById store id with
    | none => simp [assignTicket, hfind]
    | some t =>
      cases assignee with
      | none =>
        simp only [assignTicket, hfind]
        exact replaceById_map _ id t _ store hfind (by rw [saveExisting_ticketNumber])
      | some uid =>
        by_cases hmem : uid ∈ users
        · have hcont : users.contains uid = true := by simpa using hmem
          simp only [assignTicket, hfind, hcont, if_true]
          exact replaceById_map _ id t _ store hfind (by rw [saveExisting_ticketNumber])
        · simp [assignTicket, hfind, hmem]

/-- Witness for the C7 theorem at a concrete input: a title-only update by
an admin leaves the ticketNumber of printerTicket unchanged. -/
theorem ticketNumber_preserved_witness :
    ∃ r, (updateTicket [printerTicket] { id := 2, role := Role.admin } 1
        [FieldAssign.title "Printer still offline"]).1 = Res.ok r ∧
      r.ticketNumber = printerTicket.ticketNumber :=
  ticketNumber_set_only_at_creation.1 [printerTicket]
    { id := 2, role := Role.admin } 1 [FieldAssign.title "Printer still offline"]
    printerTicket (by decide) (by decide) (by decide)

end ServiceDesk
